import Mathlib

/-!
Shallow embedding of the FTP server core from `ftp_server/src/ftp/mod.rs`.

The embedding keeps the source's data model: connection records (`RequestType`,
`RequestContext`), the outbound buffer (`BufferToWrite`), the connection registry
(a map from `Token` to record, embedded as an association list with map
semantics), and the server facade (`FTPServer`) with its callbacks
`new_connection`, `read_connection` (the spawned worker's dispatch) and
`close_connection`.

Syscalls (register/deregister with the poller, flush/shutdown of a socket,
pushes onto the shared action queue and waking the reactor) are recorded in an
effects trace; streams and file handles are identified by numeric ids since no
claim inspects socket or file payloads.  Fallible operations return
`Except ErrorKind Unit` mirroring `Result<(), std::io::Error>` (only the error
kind is observable in the source paths we embed).  The worker task spawned by
`close_connection` for the upload-completion notification is embedded
synchronously at its spawn point: the claims under study are about which
mutations and effects occur, not about interleavings.
-/

/-- `mio::Token` wraps a `usize` connection id. -/
abbrev Token := Nat

/-- Stream / listener / file identifiers (the sockets themselves are opaque). -/
abbrev StreamId := Nat

/-- `std::fs::File` handle, opaque to every claim. -/
abbrev FileHandle := Nat

/-- The two `mio::Interest` values the server uses. -/
inductive Interest where
  | READABLE
  | WRITABLE
deriving DecidableEq, Repr

/-- The `std::io::ErrorKind` values observable in the embedded paths. -/
inductive ErrorKind where
  | NotFound
  | WouldBlock
  | WriteZero
  | Other
deriving DecidableEq, Repr

/-- Observable syscall-level effects of a facade callback, in program order. -/
inductive Effect where
  /-- `poll.registry().register(stream, token, interest)` -/
  | Register (stream : StreamId) (i : Interest)
  /-- `poll.registry().deregister(stream)` -/
  | Deregister (stream : StreamId)
  /-- `stream.flush()` -/
  | Flush (stream : StreamId)
  /-- `stream.shutdown(Shutdown::Both)` -/
  | Shutdown (stream : StreamId)
  /-- pushing `(token, record, interest)` onto the shared action queue -/
  | PushAction (tok : Token) (i : Interest)
  /-- `waker.wake()` -/
  | Wake
deriving DecidableEq, Repr

/-- `Response` is a tuple struct wrapping the numeric FTP reply code
(`response.rs`, field accessed as `response_code.0` in `create_response`). -/
structure Response where
  code : Nat
deriving DecidableEq, Repr

/-- Modelled from the spec: `Response::service_ready()` lives in `response.rs`,
which is not under `src/`.  Per the spec's reply-code table and the greeting
scenario (and the tests in `mod.rs`, which expect
`"220 Service ready for new user.\x0d\x0a"`), the service-ready code is 220. -/
def Response.service_ready : Response := ⟨220⟩

/-- `create_response`: `format!("{} {}\r\n", response_code.0, message).into_bytes()`.
Buffers are embedded as `String` (all buffers built by the embedded code are
valid UTF-8). -/
def create_response (response_code : Response) (message : String) : String :=
  toString response_code.code ++ " " ++ message ++ "\r\n"

/-- `BufferToWrite`: outbound bytes, current offset, and the optional post-send
continuation (a closure in the source; only its presence is observable here). -/
structure BufferToWrite where
  buffer : String
  offset : Nat
  callback_after_sending : Option Unit
deriving DecidableEq, Repr

/-- `BufferToWrite::default()` -/
def BufferToWrite.default : BufferToWrite :=
  { buffer := "", offset := 0, callback_after_sending := none }

/-- `BufferToWrite::new(vector)` -/
def BufferToWrite.new (vector : String) : BufferToWrite :=
  { buffer := vector, offset := 0, callback_after_sending := none }

/-- `BufferToWrite::reset(vector)`: replaces the buffer and rewinds the offset,
leaving the continuation slot untouched. -/
def BufferToWrite.reset (b : BufferToWrite) (vector : String) : BufferToWrite :=
  { b with buffer := vector, offset := 0 }

/-- `FileTransferType` from `mod.rs`. -/
inductive FileTransferType where
  /-- server is receiving a file; the `Option` holds the reply bytes to emit on
  the control channel once the upload finishes (`None` while still reading) -/
  | FileUpload (file : FileHandle) (data_to_be_sent : Option String)
  /-- server is serving a file to the client -/
  | FileDownload (file : FileHandle)
  /-- server is writing a fixed buffer to the client -/
  | Buffer (buf : BufferToWrite)
deriving DecidableEq, Repr

/-- `RequestType` from `mod.rs`. -/
inductive RequestType where
  /-- connection instantly closed after accept (concurrency cap exceeded) -/
  | Closed (stream : StreamId)
  /-- data transfer in passive mode; the token references the `CommandTransfer` record -/
  | FileTransferPassive (stream : StreamId) (t : FileTransferType) (cmd : Token)
  /-- data transfer in active mode; the token references the `CommandTransfer` record -/
  | FileTransferActive (stream : StreamId) (t : FileTransferType) (cmd : Token)
  /-- control connection: stream, outbound buffer, optional linked
  `PassiveModePort`/`FileTransferActive`/`FileTransferPassive` token, and the
  pending RNFR path -/
  | CommandTransfer (stream : StreamId) (buf : BufferToWrite)
      (conn : Option Token) (pending_path : Option String)
  /-- passive-mode listening port referencing its `CommandTransfer` record -/
  | PassiveModePort (listener : StreamId) (cmd : Token)
deriving DecidableEq, Repr

/-- Whether a record is a control (`CommandTransfer`) record. -/
def RequestType.isCommandTransfer : RequestType → Bool
  | .CommandTransfer _ _ _ _ => true
  | _ => false

/-- The stream (or listener) id a record owns; every arm of
`FTPServer::deregister` deregisters exactly this socket. -/
def RequestType.streamId : RequestType → StreamId
  | .Closed stream => stream
  | .FileTransferPassive stream _ _ => stream
  | .FileTransferActive stream _ _ => stream
  | .CommandTransfer stream _ _ _ => stream
  | .PassiveModePort listener _ => listener

/-- `RequestContext` from `mod.rs`. -/
structure RequestContext where
  request_type : RequestType
  user_id : Option String
  loged : Bool
deriving DecidableEq, Repr

/-- `RequestContext::new(request_type)` -/
def RequestContext.new (request_type : RequestType) : RequestContext :=
  { request_type := request_type, user_id := none, loged := false }

/-- A user of the system (`user_manage::SystemUsers` entries): per §3 of the
spec a user carries a name, a password, a physical root and a virtual cwd. -/
structure User where
  password : String
  root_dir : String
  cwd : String
deriving DecidableEq, Repr

/-- Modelled from the spec: `User::change_dir` lives in the `user_manage`
crate, which is not under `src/`.  Per the spec's user-store operations
(`set_cwd(user, virtual_path)`), it stores the given virtual path as the
user's current working directory; `close_connection` invokes it with `"/"`,
which resolves to the virtual root. -/
def User.change_dir (u : User) (path : String) : User :=
  { u with cwd := path }

/-- Association-list lookup with map semantics (`HashMap::get`). -/
def alookup {κ α : Type} [DecidableEq κ] : List (κ × α) → κ → Option α
  | [], _ => none
  | p :: rest, k => if p.1 = k then some p.2 else alookup rest k

/-- Association-list key removal (`HashMap::remove`, at the level of contents). -/
def aremove {κ α : Type} [DecidableEq κ] : List (κ × α) → κ → List (κ × α)
  | [], _ => []
  | p :: rest, k => if p.1 = k then aremove rest k else p :: aremove rest k

/-- Association-list insertion (`HashMap::insert`: replaces any entry at the key). -/
def ainsert {κ α : Type} [DecidableEq κ] (l : List (κ × α)) (k : κ) (v : α) :
    List (κ × α) :=
  (k, v) :: aremove l k

/-- `SystemUsers::get_user_mut(name)` followed by `user.change_dir("/")`:
the first user with the given name has its cwd reset to the virtual root. -/
def resetUserDir : List (String × User) → String → List (String × User)
  | [], _ => []
  | p :: rest, name =>
      if p.1 = name then (p.1, p.2.change_dir "/") :: rest
      else p :: resetUserDir rest name

/-- The `FTPServer` facade state: the connection registry, the shared pending
action queue, the id counter, the concurrency cap and counter, and the user
repository. -/
structure FTPServer where
  connections : List (Token × RequestContext)
  actions : List (Token × Interest)
  current_id : Nat
  max_connections : Nat
  current_connections : Nat
  user_repository : List (String × User)
deriving DecidableEq, Repr

/-- `FTPServer::with_connection_capacity(max_connections)`: fresh registry and
counters; the user repository is loaded from `./etc/users.json`, embedded here
as a parameter. -/
def FTPServer.init (max_connections : Nat) (users : List (String × User)) : FTPServer :=
  { connections := []
    actions := []
    current_id := 0
    max_connections := max_connections
    current_connections := 0
    user_repository := users }

/-- `TCPImplementation::next_id` for `FTPServer`: increment then return. -/
def FTPServer.next_id (s : FTPServer) : FTPServer × Nat :=
  ({ s with current_id := s.current_id + 1 }, s.current_id + 1)

/-- The effects of `FTPServer::deregister`: every record kind deregisters its
own socket from the poller. -/
def deregisterEffects (rt : RequestType) : List Effect :=
  [.Deregister rt.streamId]

/-- The effects of `FTPServer::shutdown`: `Closed`, `CommandTransfer` and
`FileTransferActive` streams are flushed and shut down, `FileTransferPassive`
streams are shut down without a flush, and `PassiveModePort` listeners are
left alone (the source arm is empty - a listener has no shutdown). -/
def shutdownEffects : RequestType → List Effect
  | .Closed stream => [.Flush stream, .Shutdown stream]
  | .CommandTransfer stream _ _ _ => [.Flush stream, .Shutdown stream]
  | .FileTransferActive stream _ _ => [.Flush stream, .Shutdown stream]
  | .FileTransferPassive stream _ _ => [.Shutdown stream]
  | .PassiveModePort _ _ => []

/-- `FTPServer::deregister_and_shutdown`: deregister (result ignored), then
shut down. -/
def deregisterAndShutdownEffects (rt : RequestType) : List Effect :=
  deregisterEffects rt ++ shutdownEffects rt

/-- `FTPServer::new_connection`: over the cap, register writable and install a
`Closed` record without touching the counter; below the cap, bump the counter,
register writable and install a `CommandTransfer` record pre-seeded with the
220 greeting. -/
def FTPServer.new_connection (s : FTPServer) (token : Token) (stream : StreamId) :
    FTPServer × List Effect × Except ErrorKind Unit :=
  if s.max_connections ≤ s.current_connections then
    let rc := RequestContext.new (.Closed stream)
    ({ s with connections := ainsert s.connections token rc },
     [.Register stream .WRITABLE], .ok ())
  else
    let greeting :=
      create_response Response.service_ready "Service ready for new user."
    let rc :=
      RequestContext.new
        (.CommandTransfer stream (BufferToWrite.new greeting) none none)
    ({ s with
        current_connections := s.current_connections + 1
        connections := ainsert s.connections token rc },
     [.Register stream .WRITABLE], .ok ())

/-- The final block of `close_connection`: remove the token from the registry;
if a record was actually removed and the locked record is a `CommandTransfer`,
decrement the live-control-connection counter.  (In every reachable state the
counter is positive at the decrement, so `Nat` subtraction agrees with the
source's `usize` decrement.) -/
def finishRemoval (s : FTPServer) (token : Token) (rcLocked : RequestContext)
    (tr : List Effect) : FTPServer × List Effect × Except ErrorKind Unit :=
  let removed := (alookup s.connections token).isSome
  let cc :=
    if removed && rcLocked.request_type.isCommandTransfer then
      s.current_connections - 1
    else s.current_connections
  ({ s with connections := aremove s.connections token, current_connections := cc },
   tr, .ok ())

/-- The worker task `close_connection` spawns on the upload path: look up the
linked control record; if present, reset its outbound buffer to the pending
reply bytes, push a writable action for it and wake the reactor (the action is
pushed even when the record is not a `CommandTransfer`; the buffer reset only
happens when it is). -/
def uploadNotify (s : FTPServer) (ctl : Token) (data : String) :
    FTPServer × List Effect :=
  match alookup s.connections ctl with
  | none => (s, [])
  | some cmd =>
    let cmd' :=
      match cmd.request_type with
      | .CommandTransfer stream to_write l p =>
          { cmd with request_type := .CommandTransfer stream (to_write.reset data) l p }
      | _ => cmd
    ({ s with
        connections := ainsert s.connections ctl cmd'
        actions := s.actions ++ [(ctl, .WRITABLE)] },
     [.PushAction ctl .WRITABLE, .Wake])

/-- The `FileTransferActive`/`FileTransferPassive` arm of `close_connection`:
an upload whose pending reply is still `None` must keep reading, so the call
refuses with `WriteZero` before doing anything; otherwise the pending reply (if
this is an upload) is forwarded to the control connection, the data stream is
deregistered, flushed and shut down, and the record is removed. -/
def closeDataConn (s : FTPServer) (token : Token) (rc : RequestContext)
    (stream : StreamId) (t : FileTransferType) (ctl : Token) :
    FTPServer × List Effect × Except ErrorKind Unit :=
  match t with
  | .FileUpload _ data_to_be_sent =>
    match data_to_be_sent with
    | none => (s, [], .error .WriteZero)
    | some data =>
      let un := uploadNotify s ctl data
      finishRemoval un.1 token rc
        (un.2 ++ [.Deregister stream, .Flush stream, .Shutdown stream])
  | .FileDownload _ =>
      finishRemoval s token rc [.Deregister stream, .Flush stream, .Shutdown stream]
  | .Buffer _ =>
      finishRemoval s token rc [.Deregister stream, .Flush stream, .Shutdown stream]

/-- The `if let Some(user_name) = user_name` block of `close_connection`'s
`CommandTransfer` arm: reset the user's virtual cwd to `/`. -/
def resetUserOnClose (s : FTPServer) (uid : Option String) : FTPServer :=
  match uid with
  | some name => { s with user_repository := resetUserDir s.user_repository name }
  | none => s

/-- The `if let Some(conn) = &conn` block of `close_connection`'s
`CommandTransfer` arm: if the taken linked token is present in the registry,
run `deregister_and_shutdown` on it (result ignored) and remove it. -/
def closeDangling (s : FTPServer) (link : Option Token) : FTPServer × List Effect :=
  match link with
  | none => (s, [])
  | some dt =>
    match alookup s.connections dt with
    | none => (s, [])
    | some drc =>
      ({ s with connections := aremove s.connections dt },
       deregisterAndShutdownEffects drc.request_type)

/-- `FTPServer::close_connection`.  An absent token returns `Ok` at once.  A
`Closed` record is deregistered, flushed, shut down and removed.  A data
transfer goes through `closeDataConn` (upload guard / pending-reply
forwarding).  A `CommandTransfer` record is deregistered, flushed and shut
down; its link is taken, the user's cwd is reset, the dangling linked record
(if any) is torn down and removed, and finally the record itself is removed,
decrementing the live counter.  A `PassiveModePort` is deregistered and
removed. -/
def FTPServer.close_connection (s : FTPServer) (token : Token) :
    FTPServer × List Effect × Except ErrorKind Unit :=
  match alookup s.connections token with
  | none => (s, [], .ok ())
  | some rc =>
    match rc.request_type with
    | .Closed stream =>
        finishRemoval s token rc [.Deregister stream, .Flush stream, .Shutdown stream]
    | .FileTransferActive stream t ctl => closeDataConn s token rc stream t ctl
    | .FileTransferPassive stream t ctl => closeDataConn s token rc stream t ctl
    | .CommandTransfer stream buf link pend =>
        let rc' : RequestContext :=
          { rc with request_type := .CommandTransfer stream buf none pend }
        let s1 := { s with connections := ainsert s.connections token rc' }
        let s2 := resetUserOnClose s1 rc.user_id
        let sd := closeDangling s2 link
        finishRemoval sd.1 token rc'
          ([.Deregister stream, .Flush stream, .Shutdown stream] ++ sd.2)
    | .PassiveModePort listener _ =>
        finishRemoval s token rc [.Deregister listener]

/-- The outcome `handler_read::HandlerRead::handle_read` hands back to the
worker spawned by `read_connection`: an error kind, or an optional callback to
run on the `RequestContext` (the handler itself is not under `src/`, so the
outcome is a parameter of the embedding). -/
def ReadOutcome : Type := Except ErrorKind (Option (RequestContext → RequestContext))

/-- `FTPServer::read_connection` together with the worker it spawns: look the
record up (absent ⇒ `NotFound`), deregister its interest, take the next id,
then dispatch on the handler's outcome: a `WouldBlock` error re-arms readable
for the same token and wakes; any other error shuts the stream down and wakes;
success runs the callback on the record and pushes the handler's accumulated
actions before waking. -/
def FTPServer.read_connection (s : FTPServer) (token : Token)
    (outcome : ReadOutcome) (handlerActions : List (Token × Interest)) :
    FTPServer × List Effect × Except ErrorKind Unit :=
  match alookup s.connections token with
  | none => (s, [], .error .NotFound)
  | some rc =>
    let tr0 := deregisterEffects rc.request_type
    let s0 := { s with current_id := s.current_id + 1 }
    match outcome with
    | .error e =>
      if e = .WouldBlock then
        ({ s0 with actions := s0.actions ++ [(token, .READABLE)] },
         tr0 ++ [.PushAction token .READABLE, .Wake], .ok ())
      else
        (s0, tr0 ++ shutdownEffects rc.request_type ++ [.Wake], .ok ())
    | .ok callback =>
      let rc' := (callback.getD id) rc
      ({ s0 with
          connections := ainsert s0.connections token rc'
          actions := s0.actions ++ handlerActions },
       tr0 ++ (handlerActions.map fun a => .PushAction a.1 a.2) ++ [.Wake], .ok ())

/-- What the write handler does with a `Closed` (cap-rejected) record. -/
structure RejectedDrain where
  reply_code : Nat
  closes_after_drain : Bool
deriving DecidableEq, Repr

/-- Modelled from the spec: the write handler (`handler_write.rs`) is not under
`src/`.  Per the spec's facade section, a `Rejected` (`Closed`) record's single
reply is 421 and its writable-drain continuation closes the socket. -/
def handle_write_rejected : RejectedDrain :=
  { reply_code := 421, closes_after_drain := true }

/-- The number of control (`CommandTransfer`) records in a registry. -/
def countCT : List (Token × RequestContext) → Nat
  | [] => 0
  | p :: rest => (if p.2.request_type.isCommandTransfer then 1 else 0) + countCT rest

theorem alookup_aremove_self {κ α : Type} [DecidableEq κ]
    (l : List (κ × α)) (k : κ) : alookup (aremove l k) k = none := by
  induction l with
  | nil => rfl
  | cons p rest ih =>
    by_cases h : p.1 = k
    · simpa [aremove, h] using ih
    · simpa [aremove, alookup, h] using ih

theorem alookup_aremove_ne {κ α : Type} [DecidableEq κ]
    (l : List (κ × α)) (k k' : κ) (h : k' ≠ k) :
    alookup (aremove l k) k' = alookup l k' := by
  induction l with
  | nil => rfl
  | cons p rest ih =>
    by_cases hp : p.1 = k
    · have hk : k ≠ k' := fun hc => h hc.symm
      simp [aremove, alookup, hp, hk, ih]
    · by_cases hp' : p.1 = k'
      · simp [aremove, alookup, hp, hp', h]
      · simp [aremove, alookup, hp, hp', ih]

theorem alookup_ainsert_self {κ α : Type} [DecidableEq κ]
    (l : List (κ × α)) (k : κ) (v : α) : alookup (ainsert l k v) k = some v := by
  simp [ainsert, alookup]

theorem alookup_ainsert_ne {κ α : Type} [DecidableEq κ]
    (l : List (κ × α)) (k k' : κ) (v : α) (h : k' ≠ k) :
    alookup (ainsert l k v) k' = alookup l k' := by
  have : k ≠ k' := fun hc => h hc.symm
  simp [ainsert, alookup, this, alookup_aremove_ne l k k' h]

theorem aremove_ainsert_self {κ α : Type} [DecidableEq κ]
    (l : List (κ × α)) (k : κ) (v : α) : aremove (ainsert l k v) k = aremove l k := by
  have hidem : aremove (aremove l k) k = aremove l k := by
    induction l with
    | nil => rfl
    | cons p rest ih =>
      by_cases h : p.1 = k
      · simp [aremove, h, ih]
      · simp [aremove, h, ih]
  simp [ainsert, aremove, hidem]

theorem mem_aremove_subset {κ α : Type} [DecidableEq κ]
    (l : List (κ × α)) (k : κ) (p : κ × α) (hp : p ∈ aremove l k) : p ∈ l := by
  induction l with
  | nil => simp [aremove] at hp
  | cons q rest ih =>
    by_cases h : q.1 = k
    · simp only [aremove, if_pos h] at hp
      exact List.mem_cons_of_mem _ (ih hp)
    · simp only [aremove, if_neg h, List.mem_cons] at hp
      rcases hp with hp | hp
      · exact hp ▸ List.mem_cons_self _ _
      · exact List.mem_cons_of_mem _ (ih hp)

theorem mem_ainsert {κ α : Type} [DecidableEq κ]
    (l : List (κ × α)) (k : κ) (v : α) (p : κ × α) (hp : p ∈ ainsert l k v) :
    p = (k, v) ∨ p ∈ l := by
  simp only [ainsert, List.mem_cons] at hp
  rcases hp with hp | hp
  · exact Or.inl hp
  · exact Or.inr (mem_aremove_subset l k p hp)

theorem countCT_aremove_le (l : List (Token × RequestContext)) (t : Token) :
    countCT (aremove l t) ≤ countCT l := by
  induction l with
  | nil => exact Nat.le_refl _
  | cons p rest ih =>
    by_cases h : p.1 = t
    · simp only [aremove, if_pos h, countCT]
      omega
    · simp only [aremove, if_neg h, countCT]
      omega

theorem countCT_ainsert (l : List (Token × RequestContext)) (t : Token)
    (rc : RequestContext) :
    countCT (ainsert l t rc) =
      countCT (aremove l t) + (if rc.request_type.isCommandTransfer then 1 else 0) := by
  simp only [ainsert, countCT]
  omega

theorem countCT_pos_of_lookup_ct (l : List (Token × RequestContext)) (t : Token)
    (rc : RequestContext) (h : alookup l t = some rc)
    (hct : rc.request_type.isCommandTransfer = true) :
    countCT (aremove l t) + 1 ≤ countCT l := by
  induction l with
  | nil => simp [alookup] at h
  | cons p rest ih =>
    by_cases hp : p.1 = t
    · simp only [alookup, if_pos hp] at h
      have hrc : p.2 = rc := by injection h
      simp only [aremove, if_pos hp, countCT, hrc, hct, if_pos]
      have := countCT_aremove_le rest t
      omega
    · simp only [alookup, if_neg hp] at h
      have := ih h
      simp only [aremove, if_neg hp, countCT]
      omega

theorem mem_of_alookup {κ α : Type} [DecidableEq κ]
    (l : List (κ × α)) (k : κ) (v : α) (h : alookup l k = some v) : (k, v) ∈ l := by
  induction l with
  | nil => simp [alookup] at h
  | cons p rest ih =>
    by_cases hp : p.1 = k
    · simp only [alookup, if_pos hp] at h
      have hv : p.2 = v := by injection h
      have : p = (k, v) := Prod.ext hp hv
      exact this ▸ List.mem_cons_self _ _
    · simp only [alookup, if_neg hp] at h
      exact List.mem_cons_of_mem _ (ih h)

@[simp] theorem resetUserOnClose_connections (s : FTPServer) (uid : Option String) :
    (resetUserOnClose s uid).connections = s.connections := by
  cases uid <;> rfl

@[simp] theorem resetUserOnClose_current (s : FTPServer) (uid : Option String) :
    (resetUserOnClose s uid).current_connections = s.current_connections := by
  cases uid <;> rfl

@[simp] theorem resetUserOnClose_max (s : FTPServer) (uid : Option String) :
    (resetUserOnClose s uid).max_connections = s.max_connections := by
  cases uid <;> rfl

/-- Records installable by `new_connection` alone: a cap-rejected `Closed`
record, or a control record whose data link is still empty. -/
def simpleRecord (rc : RequestContext) : Prop :=
  (∃ stream, rc.request_type = .Closed stream) ∨
  (∃ stream buf pend, rc.request_type = .CommandTransfer stream buf none pend)

/-- Inductive invariant for the concurrency cap: the live-control counter
bounds the number of control records and is itself bounded by the cap, and
every record in the registry is one `new_connection` could have installed. -/
def ServerInv (s : FTPServer) : Prop :=
  countCT s.connections ≤ s.current_connections ∧
  s.current_connections ≤ s.max_connections ∧
  ∀ p ∈ s.connections, simpleRecord p.2

theorem serverInv_init (maxc : Nat) (users : List (String × User)) :
    ServerInv (FTPServer.init maxc users) := by
  refine ⟨?_, ?_, ?_⟩
  · simp [FTPServer.init, countCT]
  · simp [FTPServer.init]
  · intro p hp
    simp [FTPServer.init] at hp

theorem serverInv_new_connection (s : FTPServer) (tok : Token) (stream : StreamId)
    (h : ServerInv s) : ServerInv (s.new_connection tok stream).1 := by
  obtain ⟨h1, h2, h3⟩ := h
  unfold FTPServer.new_connection
  by_cases hc : s.max_connections ≤ s.current_connections
  · simp only [if_pos hc]
    refine ⟨?_, h2, ?_⟩
    · rw [countCT_ainsert]
      simp only [RequestContext.new, RequestType.isCommandTransfer, if_neg, Bool.false_eq_true,
        not_false_eq_true, Nat.add_zero]
      exact le_trans (countCT_aremove_le _ _) h1
    · intro p hp
      rcases mem_ainsert _ _ _ p hp with hp | hp
      · subst hp
        exact Or.inl ⟨stream, rfl⟩
      · exact h3 p hp
  · simp only [if_neg hc]
    refine ⟨?_, ?_, ?_⟩
    · rw [countCT_ainsert]
      simp only [RequestContext.new, RequestType.isCommandTransfer, if_pos]
      have := countCT_aremove_le s.connections tok
      omega
    · dsimp only
      omega
    · intro p hp
      rcases mem_ainsert _ _ _ p hp with hp | hp
      · subst hp
        exact Or.inr ⟨stream, _, none, rfl⟩
      · exact h3 p hp

theorem serverInv_close_connection (s : FTPServer) (tok : Token)
    (h : ServerInv s) : ServerInv (s.close_connection tok).1 := by
  obtain ⟨h1, h2, h3⟩ := h
  unfold FTPServer.close_connection
  cases hl : alookup s.connections tok with
  | none => exact ⟨h1, h2, h3⟩
  | some rc =>
    dsimp only
    have hsimple : simpleRecord rc := h3 (tok, rc) (mem_of_alookup _ _ _ hl)
    rcases hsimple with ⟨stream0, hrt⟩ | ⟨stream0, buf0, pend0, hrt⟩
    · -- a cap-rejected record: removed without touching the counter
      rw [hrt]
      simp only [finishRemoval]
      refine ⟨?_, ?_, ?_⟩
      · have hct : rc.request_type.isCommandTransfer = false := by
          rw [hrt]; rfl
        simp only [hct, Bool.and_false, if_neg, Bool.false_eq_true, not_false_eq_true]
        exact le_trans (countCT_aremove_le _ _) h1
      · have hct : rc.request_type.isCommandTransfer = false := by
          rw [hrt]; rfl
        simp only [hct, Bool.and_false, if_neg, Bool.false_eq_true, not_false_eq_true]
        exact h2
      · intro p hp
        exact h3 p (mem_aremove_subset _ _ _ hp)
    · -- a control record with no data link: removed, counter decremented
      rw [hrt]
      simp only [closeDangling, finishRemoval, resetUserOnClose_connections,
        resetUserOnClose_current, resetUserOnClose_max]
      have hlook : alookup (ainsert s.connections tok
          { rc with request_type := .CommandTransfer stream0 buf0 none pend0 }) tok =
          some { rc with request_type := .CommandTransfer stream0 buf0 none pend0 } :=
        alookup_ainsert_self _ _ _
      have hct : rc.request_type.isCommandTransfer = true := by
        rw [hrt]; rfl
      have hcount : countCT (aremove s.connections tok) + 1 ≤ countCT s.connections :=
        countCT_pos_of_lookup_ct s.connections tok rc hl hct
      refine ⟨?_, ?_, ?_⟩
      · simp only [hlook, Option.isSome_some, Bool.true_and,
          RequestType.isCommandTransfer, if_pos, aremove_ainsert_self]
        omega
      · simp only [hlook, Option.isSome_some, Bool.true_and,
          RequestType.isCommandTransfer, if_pos]
        omega
      · intro p hp
        simp only [aremove_ainsert_self] at hp
        exact h3 p (mem_aremove_subset _ _ _ hp)

/-- States reachable from a fresh server by any interleaving of
`new_connection` and `close_connection` calls at arbitrary tokens. -/
inductive Reachable (maxc : Nat) (users : List (String × User)) : FTPServer → Prop where
  | base : Reachable maxc users (FTPServer.init maxc users)
  | newConn (s : FTPServer) (token : Token) (stream : StreamId) :
      Reachable maxc users s → Reachable maxc users (s.new_connection token stream).1
  | closeConn (s : FTPServer) (token : Token) :
      Reachable maxc users s → Reachable maxc users (s.close_connection token).1

theorem reachable_serverInv (maxc : Nat) (users : List (String × User))
    (s : FTPServer) (h : Reachable maxc users s) : ServerInv s := by
  induction h with
  | base => exact serverInv_init maxc users
  | newConn s token stream _ ih => exact serverInv_new_connection s token stream ih
  | closeConn s token _ ih => exact serverInv_close_connection s token ih

/-- Claim C1: for every state reachable by any sequence of `new_connection`
and `close_connection` calls, the number of live control-connection records
and the `current_connections` counter never exceed `max_connections`:
`new_connection` increments the counter only below the cap, and
`close_connection` decrements it exactly when it removes a `CommandTransfer`
record. -/
theorem C1_connection_cap (maxc : Nat) (users : List (String × User))
    (s : FTPServer) (h : Reachable maxc users s) :
    countCT s.connections ≤ s.max_connections ∧
    s.current_connections ≤ s.max_connections := by
  obtain ⟨h1, h2, _⟩ := reachable_serverInv maxc users s h
  exact ⟨le_trans h1 h2, h2⟩

/-- Concrete reachable state for the C1 witness: capacity 1, two incoming
connections (the second gets rejected), then one close. -/
def c1DemoState : FTPServer :=
  ((((FTPServer.init 1 []).new_connection 1 10).1.new_connection 2 20).1.close_connection 1).1

/-- Witness for C1 at `c1DemoState`. -/
theorem C1_connection_cap_witness :
    countCT c1DemoState.connections ≤ c1DemoState.max_connections ∧
    c1DemoState.current_connections ≤ c1DemoState.max_connections :=
  C1_connection_cap 1 [] c1DemoState
    (Reachable.closeConn _ 1
      (Reachable.newConn _ 2 20 (Reachable.newConn _ 1 10 Reachable.base)))

/-- The state after `n` successive `next_id` calls. -/
def nextIdIter (s : FTPServer) : Nat → FTPServer
  | 0 => s
  | n + 1 => ((nextIdIter s n).next_id).1

/-- The id returned by the `(n+1)`-st `next_id` call. -/
def nthIdResult (s : FTPServer) (n : Nat) : Nat := ((nextIdIter s n).next_id).2

theorem nextIdIter_current_id (s : FTPServer) (n : Nat) :
    (nextIdIter s n).current_id = s.current_id + n := by
  induction n with
  | zero => rfl
  | succ n ih =>
    simp only [nextIdIter, FTPServer.next_id, ih]
    omega

theorem nthIdResult_eq (s : FTPServer) (n : Nat) :
    nthIdResult s n = s.current_id + n + 1 := by
  simp only [nthIdResult, FTPServer.next_id, nextIdIter_current_id]

/-- Claim C8: `next_id` increments the internal counter by one and returns it,
so the returned ids are strictly increasing across calls and no two
connections get the same id. -/
theorem C8_next_id_monotonic (s : FTPServer) (i j : Nat) (h : i < j) :
    (s.next_id).1.current_id = s.current_id + 1 ∧
    (s.next_id).2 = s.current_id + 1 ∧
    nthIdResult s i < nthIdResult s j := by
  refine ⟨rfl, rfl, ?_⟩
  rw [nthIdResult_eq, nthIdResult_eq]
  omega

/-- Witness for C8: the first and third `next_id` calls on a fresh server. -/
theorem C8_next_id_monotonic_witness :
    ((FTPServer.init 5 []).next_id).1.current_id = (FTPServer.init 5 []).current_id + 1 ∧
    ((FTPServer.init 5 []).next_id).2 = (FTPServer.init 5 []).current_id + 1 ∧
    nthIdResult (FTPServer.init 5 []) 0 < nthIdResult (FTPServer.init 5 []) 2 :=
  C8_next_id_monotonic (FTPServer.init 5 []) 0 2 (by decide)

/-- Claim C7: below the cap, `new_connection` installs a `CommandTransfer`
record whose outbound buffer holds exactly the bytes
`220 Service ready for new user.\r\n` at offset 0 (no continuation, no data
link, unauthenticated) and registers the socket with writable interest, so the
220 greeting is the first reply the client observes. -/
theorem C7_greeting (s : FTPServer) (tok : Token) (stream : StreamId)
    (h : s.current_connections < s.max_connections) :
    alookup (s.new_connection tok stream).1.connections tok =
      some { request_type := .CommandTransfer stream
               { buffer := "220 Service ready for new user.\r\n", offset := 0,
                 callback_after_sending := none }
               none none,
             user_id := none, loged := false } ∧
    (s.new_connection tok stream).2.1 = [.Register stream .WRITABLE] := by
  have hc : ¬ s.max_connections ≤ s.current_connections := by omega
  unfold FTPServer.new_connection
  simp only [if_neg hc]
  refine ⟨?_, trivial⟩
  rw [alookup_ainsert_self]
  rfl

/-- Witness for C7: a fresh server with capacity 5 accepting token 1. -/
theorem C7_greeting_witness :
    alookup ((FTPServer.init 5 []).new_connection 1 10).1.connections 1 =
      some { request_type := .CommandTransfer 10
               { buffer := "220 Service ready for new user.\r\n", offset := 0,
                 callback_after_sending := none }
               none none,
             user_id := none, loged := false } ∧
    ((FTPServer.init 5 []).new_connection 1 10).2.1 = [.Register 10 .WRITABLE] :=
  C7_greeting (FTPServer.init 5 []) 1 10 (by decide)

/-- Claim C3: at the cap, `new_connection` installs a `Closed` (rejected)
record, registers the socket with writable interest and does not increment the
live-control counter; the write handler's single reply for such a record is
code 421 and its drain continuation closes the socket (modelled from the spec,
`handler_write.rs` not being under `src/`). -/
theorem C3_reject_at_cap (s : FTPServer) (tok : Token) (stream : StreamId)
    (h : s.max_connections ≤ s.current_connections) :
    (s.new_connection tok stream).1.current_connections = s.current_connections ∧
    alookup (s.new_connection tok stream).1.connections tok =
      some { request_type := .Closed stream, user_id := none, loged := false } ∧
    (s.new_connection tok stream).2.1 = [.Register stream .WRITABLE] ∧
    handle_write_rejected.reply_code = 421 ∧
    handle_write_rejected.closes_after_drain = true := by
  unfold FTPServer.new_connection
  simp only [if_pos h]
  refine ⟨trivial, ?_, trivial, rfl, rfl⟩
  rw [alookup_ainsert_self]
  rfl

/-- Witness for C3: a server with capacity 0 rejecting its first connection. -/
theorem C3_reject_at_cap_witness :
    ((FTPServer.init 0 []).new_connection 1 10).1.current_connections =
      (FTPServer.init 0 []).current_connections ∧
    alookup ((FTPServer.init 0 []).new_connection 1 10).1.connections 1 =
      some { request_type := .Closed 10, user_id := none, loged := false } ∧
    ((FTPServer.init 0 []).new_connection 1 10).2.1 = [.Register 10 .WRITABLE] ∧
    handle_write_rejected.reply_code = 421 ∧
    handle_write_rejected.closes_after_drain = true :=
  C3_reject_at_cap (FTPServer.init 0 []) 1 10 (by decide)

/-- Claim C6: when the read handler reports `WouldBlock`, the worker treats it
as a non-error: the registry (hence the connection record) is left unchanged,
nothing is shut down or removed, the callback returns `Ok`, and an action
re-arming readable interest for the same token is enqueued before the waker is
signalled. -/
theorem C6_would_block (s : FTPServer) (tok : Token) (rc : RequestContext)
    (handlerActions : List (Token × Interest))
    (h : alookup s.connections tok = some rc) :
    (s.read_connection tok (.error .WouldBlock) handlerActions).1.connections =
      s.connections ∧
    (s.read_connection tok (.error .WouldBlock) handlerActions).2.2 = .ok () ∧
    (s.read_connection tok (.error .WouldBlock) handlerActions).2.1 =
      deregisterEffects rc.request_type ++ [.PushAction tok .READABLE, .Wake] ∧
    (s.read_connection tok (.error .WouldBlock) handlerActions).1.actions =
      s.actions ++ [(tok, .READABLE)] ∧
    ∀ stream, Effect.Shutdown stream ∉
      (s.read_connection tok (.error .WouldBlock) handlerActions).2.1 := by
  unfold FTPServer.read_connection
  rw [h]
  refine ⟨rfl, rfl, rfl, rfl, ?_⟩
  intro stream
  dsimp only
  simp [deregisterEffects]

/-- Concrete state for the C6 witness: one control connection at token 1. -/
def c6State : FTPServer :=
  { connections := [(1, RequestContext.new (.CommandTransfer 10 BufferToWrite.default none none))]
    actions := []
    current_id := 1
    max_connections := 5
    current_connections := 1
    user_repository := [] }

/-- Witness for C6 at `c6State`. -/
theorem C6_would_block_witness :
    (c6State.read_connection 1 (.error .WouldBlock) []).1.connections =
      c6State.connections ∧
    (c6State.read_connection 1 (.error .WouldBlock) []).2.2 = .ok () ∧
    (c6State.read_connection 1 (.error .WouldBlock) []).2.1 =
      deregisterEffects (RequestContext.new
        (.CommandTransfer 10 BufferToWrite.default none none)).request_type ++
        [.PushAction 1 .READABLE, .Wake] ∧
    (c6State.read_connection 1 (.error .WouldBlock) []).1.actions =
      c6State.actions ++ [(1, .READABLE)] ∧
    ∀ stream, Effect.Shutdown stream ∉
      (c6State.read_connection 1 (.error .WouldBlock) []).2.1 :=
  C6_would_block c6State 1
    (RequestContext.new (.CommandTransfer 10 BufferToWrite.default none none)) [] rfl

/-- Claim C10: `close_connection` on an upload-mode data record whose pending
reply is `None` is an atomic refusal: it returns a `WriteZero` error with an
empty effects trace and the server state (registry, counters, every record)
completely unchanged, so the connection can keep reading. -/
theorem C10_upload_close_guard (s : FTPServer) (tok : Token) (rc : RequestContext)
    (stream : StreamId) (f : FileHandle) (ctl : Token)
    (h1 : alookup s.connections tok = some rc)
    (h2 : rc.request_type = .FileTransferActive stream (.FileUpload f none) ctl ∨
          rc.request_type = .FileTransferPassive stream (.FileUpload f none) ctl) :
    s.close_connection tok = (s, [], .error .WriteZero) := by
  unfold FTPServer.close_connection
  rw [h1]
  dsimp only
  rcases h2 with h2 | h2 <;> rw [h2] <;> rfl

/-- Concrete state for the C10 witness: an active-mode upload at token 2 with
no pending reply, linked to control token 1. -/
def c10State : FTPServer :=
  { connections :=
      [(1, { request_type := .CommandTransfer 10 BufferToWrite.default (some 2) none,
             user_id := none, loged := false }),
       (2, { request_type := .FileTransferActive 20 (.FileUpload 7 none) 1,
             user_id := none, loged := false })]
    actions := []
    current_id := 2
    max_connections := 50
    current_connections := 1
    user_repository := [] }

/-- Witness for C10 at `c10State`. -/
theorem C10_upload_close_guard_witness :
    c10State.close_connection 2 = (c10State, [], .error .WriteZero) :=
  C10_upload_close_guard c10State 2
    { request_type := .FileTransferActive 20 (.FileUpload 7 none) 1,
      user_id := none, loged := false }
    20 7 1 rfl (Or.inl rfl)

/-- Control record for the C2 counterexample: token 1, empty outbound buffer,
linked to data token 2. -/
def c2Ctl : RequestContext :=
  { request_type := .CommandTransfer 10 BufferToWrite.default (some 2) none,
    user_id := none, loged := false }

/-- Data record for the C2 counterexample: an upload still in progress, so its
pending final reply is absent. -/
def c2Data : RequestContext :=
  { request_type := .FileTransferPassive 20 (.FileUpload 7 none) 1,
    user_id := none, loged := false }

/-- Server state for the C2 counterexample. -/
def c2State : FTPServer :=
  { connections := [(1, c2Ctl), (2, c2Data)]
    actions := []
    current_id := 2
    max_connections := 50
    current_connections := 1
    user_repository := [] }

/-- Claim C2 counterexample: invoking `close_connection` on the upload data
connection (token 2) whose pending final reply is absent does NOT synthesize a
451 (or any) reply on the linked control connection and does NOT close either
socket: the call returns a `WriteZero` error, performs no effect, and leaves
both records - including the control's still-empty outbound buffer - exactly
as they were. -/
theorem C2_counterexample :
    c2State.close_connection 2 = (c2State, [], .error .WriteZero) ∧
    alookup (c2State.close_connection 2).1.connections 1 = some c2Ctl ∧
    alookup (c2State.close_connection 2).1.connections 2 = some c2Data ∧
    c2Ctl.request_type = .CommandTransfer 10
      { buffer := "", offset := 0, callback_after_sending := none } (some 2) none :=
  ⟨rfl, rfl, rfl, rfl⟩

/-- Claim C2 amended: on an upload-mode data connection, `close_connection`
synthesizes nothing when the pending final reply is absent - it returns a
`WriteZero` error and leaves the server untouched (see the counterexample and
claim C10); only when the pending reply is present does it forward exactly
those bytes onto the linked control connection's outbound buffer, arm the
control writable, and deregister/flush/shut down and remove the data record. -/
theorem C2_amended (s : FTPServer) (tok ctl : Token) (rc crc : RequestContext)
    (stream : StreamId) (f : FileHandle) (data : String) (cstream : StreamId)
    (cbuf : BufferToWrite) (clink : Option Token) (cpend : Option String)
    (h1 : alookup s.connections tok = some rc)
    (h2 : rc.request_type = .FileTransferPassive stream (.FileUpload f (some data)) ctl ∨
          rc.request_type = .FileTransferActive stream (.FileUpload f (some data)) ctl)
    (h3 : alookup s.connections ctl = some crc)
    (h4 : crc.request_type = .CommandTransfer cstream cbuf clink cpend)
    (h5 : ctl ≠ tok) :
    (s.close_connection tok).2.2 = .ok () ∧
    alookup (s.close_connection tok).1.connections ctl =
      some { crc with request_type := .CommandTransfer cstream (cbuf.reset data) clink cpend } ∧
    alookup (s.close_connection tok).1.connections tok = none ∧
    (s.close_connection tok).1.actions = s.actions ++ [(ctl, .WRITABLE)] ∧
    (s.close_connection tok).2.1 =
      [.PushAction ctl .WRITABLE, .Wake,
       .Deregister stream, .Flush stream, .Shutdown stream] := by
  unfold FTPServer.close_connection
  rw [h1]
  dsimp only
  rcases h2 with h2 | h2
  · rw [h2]
    simp only [closeDataConn, uploadNotify]
    rw [h3]
    dsimp only
    rw [h4]
    dsimp only [finishRemoval]
    refine ⟨rfl, ?_, ?_, rfl, rfl⟩
    · rw [alookup_aremove_ne _ _ _ h5, alookup_ainsert_self]
    · exact alookup_aremove_self _ _
  · rw [h2]
    simp only [closeDataConn, uploadNotify]
    rw [h3]
    dsimp only
    rw [h4]
    dsimp only [finishRemoval]
    refine ⟨rfl, ?_, ?_, rfl, rfl⟩
    · rw [alookup_aremove_ne _ _ _ h5, alookup_ainsert_self]
    · exact alookup_aremove_self _ _

/-- Control record for the C2 witness. -/
def c2wCtl : RequestContext :=
  { request_type := .CommandTransfer 10 BufferToWrite.default none none,
    user_id := none, loged := false }

/-- Data record for the C2 witness: upload finished, pending reply present. -/
def c2wData : RequestContext :=
  { request_type := .FileTransferPassive 20 (.FileUpload 7 (some "226 done\r\n")) 1,
    user_id := none, loged := false }

/-- Server state for the C2 witness. -/
def c2wState : FTPServer :=
  { connections := [(1, c2wCtl), (2, c2wData)]
    actions := []
    current_id := 2
    max_connections := 50
    current_connections := 1
    user_repository := [] }

/-- Witness for the amended C2 at `c2wState`. -/
theorem C2_amended_witness :
    (c2wState.close_connection 2).2.2 = .ok () ∧
    alookup (c2wState.close_connection 2).1.connections 1 =
      some { c2wCtl with request_type :=
               .CommandTransfer 10 (BufferToWrite.default.reset "226 done\r\n") none none } ∧
    alookup (c2wState.close_connection 2).1.connections 2 = none ∧
    (c2wState.close_connection 2).1.actions = c2wState.actions ++ [(1, .WRITABLE)] ∧
    (c2wState.close_connection 2).2.1 =
      [.PushAction 1 .WRITABLE, .Wake, .Deregister 20, .Flush 20, .Shutdown 20] :=
  C2_amended c2wState 2 1 c2wData c2wCtl 20 7 "226 done\r\n" 10
    BufferToWrite.default none none rfl (Or.inl rfl) rfl rfl (by decide)

/-- Control record for the C5 counterexample: token 1 linked to listener 2. -/
def c5Ctl : RequestContext :=
  { request_type := .CommandTransfer 10 BufferToWrite.default (some 2) none,
    user_id := none, loged := false }

/-- Linked record for the C5 counterexample: a passive-mode listener. -/
def c5Port : RequestContext :=
  { request_type := .PassiveModePort 20 1, user_id := none, loged := false }

/-- Server state for the C5 counterexample. -/
def c5State : FTPServer :=
  { connections := [(1, c5Ctl), (2, c5Port)]
    actions := []
    current_id := 2
    max_connections := 50
    current_connections := 1
    user_repository := [] }

/-- Claim C5 counterexample: control token 1 is a `CommandTransfer` whose
linked slot holds token 2, present in the registry as a listener.  Closing the
control deregisters and removes the listener, but never shuts it down - the
trace of `close_connection 1` contains no `Shutdown 20` - contradicting the
claim that the linked record (listener or data stream) is deregistered, shut
down, and removed. -/
theorem C5_counterexample :
    alookup c5State.connections 1 = some c5Ctl ∧
    c5Ctl.request_type = .CommandTransfer 10 BufferToWrite.default (some 2) none ∧
    alookup c5State.connections 2 = some c5Port ∧
    alookup (c5State.close_connection 1).1.connections 2 = none ∧
    Effect.Deregister 20 ∈ (c5State.close_connection 1).2.1 ∧
    Effect.Shutdown 20 ∉ (c5State.close_connection 1).2.1 := by
  refine ⟨rfl, rfl, rfl, rfl, ?_, ?_⟩
  · decide
  · decide

/-- Claim C5 amended: closing a control connection tears down its linked data
resource: when the linked slot holds a distinct token present in the registry,
`close_connection` on the control token deregisters the linked record and
removes it from the registry (clearing the link, since the control record
itself is also removed); for linked data streams it additionally shuts the
socket down, while a linked listener is only deregistered and dropped. -/
theorem C5_amended (s : FTPServer) (ctl dt : Token) (rc drc : RequestContext)
    (stream : StreamId) (buf : BufferToWrite) (pend : Option String)
    (h1 : alookup s.connections ctl = some rc)
    (h2 : rc.request_type = .CommandTransfer stream buf (some dt) pend)
    (h3 : alookup s.connections dt = some drc)
    (h4 : dt ≠ ctl) :
    (s.close_connection ctl).2.2 = .ok () ∧
    alookup (s.close_connection ctl).1.connections dt = none ∧
    alookup (s.close_connection ctl).1.connections ctl = none ∧
    Effect.Deregister drc.request_type.streamId ∈ (s.close_connection ctl).2.1 ∧
    (∀ stream2 t2 c2,
       drc.request_type = .FileTransferActive stream2 t2 c2 ∨
       drc.request_type = .FileTransferPassive stream2 t2 c2 →
       Effect.Shutdown stream2 ∈ (s.close_connection ctl).2.1) := by
  unfold FTPServer.close_connection
  rw [h1]
  dsimp only
  rw [h2]
  simp only [closeDangling, resetUserOnClose_connections]
  rw [alookup_ainsert_ne _ _ _ _ h4, h3]
  dsimp only [finishRemoval]
  refine ⟨rfl, ?_, ?_, ?_, ?_⟩
  · rw [alookup_aremove_ne _ _ _ h4, alookup_aremove_self]
  · exact alookup_aremove_self _ _
  · simp [deregisterAndShutdownEffects, deregisterEffects]
  · intro stream2 t2 c2 hd
    rcases hd with hd | hd <;>
      simp [deregisterAndShutdownEffects, deregisterEffects, shutdownEffects, hd]

/-- Control record for the C5 witness: token 1 linked to data token 2. -/
def c5wCtl : RequestContext :=
  { request_type := .CommandTransfer 10 BufferToWrite.default (some 2) none,
    user_id := none, loged := false }

/-- Linked record for the C5 witness: a passive-mode data stream. -/
def c5wData : RequestContext :=
  { request_type := .FileTransferPassive 20 (.Buffer BufferToWrite.default) 1,
    user_id := none, loged := false }

/-- Server state for the C5 witness. -/
def c5wState : FTPServer :=
  { connections := [(1, c5wCtl), (2, c5wData)]
    actions := []
    current_id := 2
    max_connections := 50
    current_connections := 1
    user_repository := [] }

/-- Witness for the amended C5 at `c5wState`. -/
theorem C5_amended_witness :
    (c5wState.close_connection 1).2.2 = .ok () ∧
    alookup (c5wState.close_connection 1).1.connections 2 = none ∧
    alookup (c5wState.close_connection 1).1.connections 1 = none ∧
    Effect.Deregister c5wData.request_type.streamId ∈ (c5wState.close_connection 1).2.1 ∧
    (∀ stream2 t2 c2,
       c5wData.request_type = .FileTransferActive stream2 t2 c2 ∨
       c5wData.request_type = .FileTransferPassive stream2 t2 c2 →
       Effect.Shutdown stream2 ∈ (c5wState.close_connection 1).2.1) :=
  C5_amended c5wState 1 2 c5wCtl c5wData 10 BufferToWrite.default none
    rfl rfl rfl (by decide)

theorem resetUserDir_alookup_self (repo : List (String × User)) (name : String) :
    alookup (resetUserDir repo name) name =
      (alookup repo name).map (fun u => u.change_dir "/") := by
  induction repo with
  | nil => rfl
  | cons p rest ih =>
    by_cases hp : p.1 = name
    · simp [resetUserDir, alookup, hp]
    · simp [resetUserDir, alookup, hp, ih]

@[simp] theorem finishRemoval_user_repository (s : FTPServer) (tok : Token)
    (rc : RequestContext) (tr : List Effect) :
    (finishRemoval s tok rc tr).1.user_repository = s.user_repository := rfl

@[simp] theorem closeDangling_user_repository (s : FTPServer) (link : Option Token) :
    (closeDangling s link).1.user_repository = s.user_repository := by
  cases link with
  | none => rfl
  | some dt =>
    simp only [closeDangling]
    cases alookup s.connections dt <;> rfl

/-- Claim C9: when `close_connection` processes a `CommandTransfer` record
whose `user_id` names a user present in the user store, that user's current
working directory is reset to the virtual root `/` as a side effect -
regardless of any other live connections of the same user. -/
theorem C9_cwd_reset (s : FTPServer) (tok : Token) (rc : RequestContext)
    (stream : StreamId) (buf : BufferToWrite) (link : Option Token)
    (pend : Option String) (uname : String) (u : User)
    (h1 : alookup s.connections tok = some rc)
    (h2 : rc.request_type = .CommandTransfer stream buf link pend)
    (h3 : rc.user_id = some uname)
    (h4 : alookup s.user_repository uname = some u) :
    alookup (s.close_connection tok).1.user_repository uname =
      some (u.change_dir "/") := by
  unfold FTPServer.close_connection
  rw [h1]
  dsimp only
  rw [h2]
  rw [finishRemoval_user_repository, closeDangling_user_repository, h3]
  dsimp only [resetUserOnClose]
  rw [resetUserDir_alookup_self, h4]
  rfl

/-- Control record for the C9 witness: a logged-in control connection. -/
def c9Ctl : RequestContext :=
  { request_type := .CommandTransfer 10 BufferToWrite.default none none,
    user_id := some "alice", loged := true }

/-- User for the C9 witness, currently inside a subdirectory. -/
def c9User : User :=
  { password := "123456", root_dir := "./root/alice", cwd := "/docs" }

/-- Server state for the C9 witness. -/
def c9State : FTPServer :=
  { connections := [(1, c9Ctl)]
    actions := []
    current_id := 1
    max_connections := 50
    current_connections := 1
    user_repository := [("alice", c9User)] }

/-- Witness for C9 at `c9State`. -/
theorem C9_cwd_reset_witness :
    alookup (c9State.close_connection 1).1.user_repository "alice" =
      some (c9User.change_dir "/") :=
  C9_cwd_reset c9State 1 c9Ctl 10 BufferToWrite.default none none "alice" c9User
    rfl rfl rfl rfl

theorem close_absent (s : FTPServer) (tok : Token)
    (h : alookup s.connections tok = none) :
    s.close_connection tok = (s, [], .ok ()) := by
  unfold FTPServer.close_connection
  rw [h]

theorem close_ok_removed (s : FTPServer) (tok : Token) :
    (s.close_connection tok).2.2 = .ok () →
    alookup (s.close_connection tok).1.connections tok = none := by
  unfold FTPServer.close_connection
  cases hl : alookup s.connections tok with
  | none =>
    intro _
    exact hl
  | some rc =>
    dsimp only
    cases hrt : rc.request_type with
    | Closed stream =>
      intro _
      exact alookup_aremove_self _ _
    | FileTransferActive stream t ctl =>
      cases t with
      | FileUpload f pending =>
        cases pending with
        | none =>
          intro h
          simp [closeDataConn] at h
        | some data =>
          intro _
          exact alookup_aremove_self _ _
      | FileDownload f =>
        intro _
        exact alookup_aremove_self _ _
      | Buffer b =>
        intro _
        exact alookup_aremove_self _ _
    | FileTransferPassive stream t ctl =>
      cases t with
      | FileUpload f pending =>
        cases pending with
        | none =>
          intro h
          simp [closeDataConn] at h
        | some data =>
          intro _
          exact alookup_aremove_self _ _
      | FileDownload f =>
        intro _
        exact alookup_aremove_self _ _
      | Buffer b =>
        intro _
        exact alookup_aremove_self _ _
    | CommandTransfer stream buf link pend =>
      intro _
      exact alookup_aremove_self _ _
    | PassiveModePort listener cmd =>
      intro _
      exact alookup_aremove_self _ _

/-- Claim C4: `close_connection` is idempotent: after a first invocation that
returned `Ok`, the token is no longer in the registry, and a second invocation
on the same token returns `Ok` with no effects, leaving the registry, the
live-connection counter and every remaining record unchanged (it returns
early). -/
theorem C4_close_idempotent (s : FTPServer) (tok : Token)
    (h : (s.close_connection tok).2.2 = .ok ()) :
    alookup (s.close_connection tok).1.connections tok = none ∧
    (s.close_connection tok).1.close_connection tok =
      ((s.close_connection tok).1, [], .ok ()) := by
  have hr := close_ok_removed s tok h
  exact ⟨hr, close_absent _ _ hr⟩

/-- Server state for the C4 witness: one live control connection at token 3. -/
def c4State : FTPServer :=
  { connections :=
      [(3, { request_type := .CommandTransfer 30 BufferToWrite.default none none,
             user_id := none, loged := false })]
    actions := []
    current_id := 3
    max_connections := 50
    current_connections := 1
    user_repository := [] }

/-- Witness for C4 at `c4State`. -/
theorem C4_close_idempotent_witness :
    alookup (c4State.close_connection 3).1.connections 3 = none ∧
    (c4State.close_connection 3).1.close_connection 3 =
      ((c4State.close_connection 3).1, [], .ok ()) :=
  C4_close_idempotent c4State 3 rfl
